import Mathlib

/-!
Shallow embedding of the Crocengine liveness-verification session engine
(`src/ai-models/face verification/simple_face_kyc.py` and
`face_kyc_api.py`).  The two Python classes are near-duplicates differing
only in threshold constants, so the engine is embedded once, parameterized
by a `Policy`; the two concrete constant sets appear as `simplePolicy`
(simple_face_kyc.py) and `apiPolicy` (face_kyc_api.py).

Python floats are modelled as exact rationals (`ℚ`); frame counters as `ℕ`.
Image decoding and face detection are upstream collaborators: the engine
receives `Option Pose` (`none` = no face detected in the frame).  Wall-clock
readings (`time.time()`) are threaded in as explicit `ℚ` parameters.
-/

namespace Croc

/-- Movement labels; `MovementLabel.none` models Python `None` from
`detect_movement` (no branch of the classifier chain matched). -/
inductive MovementLabel
  | center
  | left
  | right
  | up
  | down
  | none
deriving DecidableEq

/-- A pose signal: normalized horizontal/vertical displacement. -/
structure Pose where
  horizontal : ℚ
  vertical : ℚ
deriving DecidableEq

/-- The `movements` dict of a session: which labels have been achieved. -/
structure Movements where
  left : Bool
  right : Bool
  up : Bool
  down : Bool
  center : Bool
deriving DecidableEq

/-- An entry of `face_positions` (pose plus timestamp). -/
structure PositionEntry where
  horizontal : ℚ
  vertical : ℚ
  timestamp : ℚ
deriving DecidableEq

/-- An entry of `movement_history` (label, timestamp, pose). -/
structure HistoryEntry where
  movement : MovementLabel
  timestamp : ℚ
  pose : Pose
deriving DecidableEq

/-- The per-session state created by `create_session`. -/
structure SessionRecord where
  start_time : ℚ
  movements : Movements
  movement_history : List HistoryEntry
  face_positions : List PositionEntry
  verification_complete : Bool
  is_verified : Bool
  total_frames : ℕ
  face_detected_frames : ℕ
deriving DecidableEq

/-- The constants that differ between the two Python variants. -/
structure Policy where
  centerThreshold : ℚ
  hThreshold : ℚ
  vThreshold : ℚ
  minFrames : ℕ
  minFaceDetectionRate : ℚ
  positionCapacity : ℕ
  historyCapacity : ℕ
deriving DecidableEq

/-- Constants of `SimpleFaceKYCVerifier` (simple_face_kyc.py):
`h_threshold = 0.2`, `v_threshold = 0.15`, `center_threshold = 0.1`,
`min_frames = 45`, `min_face_detection_rate = 0.6`,
`face_positions` deque maxlen 15, `movement_history` deque maxlen 30. -/
def simplePolicy : Policy :=
  { centerThreshold := 1/10
    hThreshold := 1/5
    vThreshold := 3/20
    minFrames := 45
    minFaceDetectionRate := 3/5
    positionCapacity := 15
    historyCapacity := 30 }

/-- Constants of `FaceKYCVerifier` (face_kyc_api.py):
`h_threshold = 0.15`, `v_threshold = 0.12`, `center_threshold = 0.08`,
`min_frames = 60`, `min_face_detection_rate = 0.7`,
`face_positions` deque maxlen 10, `movement_history` deque maxlen 30. -/
def apiPolicy : Policy :=
  { centerThreshold := 2/25
    hThreshold := 3/20
    vThreshold := 3/25
    minFrames := 60
    minFaceDetectionRate := 7/10
    positionCapacity := 10
    historyCapacity := 30 }

/-- `collections.deque(maxlen := cap).append x`: append on the right,
evicting the oldest (leftmost) element when the buffer is full. -/
def pushBounded (cap : ℕ) (xs : List α) (x : α) : List α :=
  if cap ≤ xs.length then xs.tail ++ [x] else xs ++ [x]

/-- The classifier chain of `detect_movement` (identical shape in both
variants; only the threshold constants differ): first match wins,
all comparisons strict. -/
def classify (ct ht vt : ℚ) (h v : ℚ) : MovementLabel :=
  if |h| < ct ∧ |v| < ct then MovementLabel.center
  else if h > ht then MovementLabel.right
  else if h < -ht then MovementLabel.left
  else if v < -vt then MovementLabel.up
  else if v > vt then MovementLabel.down
  else MovementLabel.none

/-- Each branch of the `detect_movement` chain sets the flag for the label
it detects (`session_data['movements'][label] = True`); no branch clears
a flag. -/
def setMovement (m : Movements) : MovementLabel → Movements
  | MovementLabel.center => { m with center := true }
  | MovementLabel.right => { m with right := true }
  | MovementLabel.left => { m with left := true }
  | MovementLabel.up => { m with up := true }
  | MovementLabel.down => { m with down := true }
  | MovementLabel.none => m

/-- `detect_movement(pose, session_data)`: store the position, classify,
set the completed-movement flag, and append to `movement_history` when a
movement was detected.  Returns the detected label
(`MovementLabel.none` = Python `None`). -/
def detectMovement (p : Policy) (now : ℚ) (pose : Pose) (r : SessionRecord) :
    MovementLabel × SessionRecord :=
  let entry : PositionEntry := ⟨pose.horizontal, pose.vertical, now⟩
  let r1 := { r with face_positions := pushBounded p.positionCapacity r.face_positions entry }
  let md := classify p.centerThreshold p.hThreshold p.vThreshold pose.horizontal pose.vertical
  let r2 := { r1 with movements := setMovement r1.movements md }
  let r3 :=
    if md = MovementLabel.none then r2
    else { r2 with movement_history := pushBounded p.historyCapacity r2.movement_history ⟨md, now, pose⟩ }
  (md, r3)

/-- `required_movements = ['left', 'right', 'up', 'center']` (hard-coded
in `check_verification_complete` of both variants; `down` is absent). -/
def requiredMovements : List MovementLabel :=
  [MovementLabel.left, MovementLabel.right, MovementLabel.up, MovementLabel.center]

/-- `movements[move]` lookup in the session's movement dict. -/
def getMovement (m : Movements) : MovementLabel → Bool
  | MovementLabel.left => m.left
  | MovementLabel.right => m.right
  | MovementLabel.up => m.up
  | MovementLabel.down => m.down
  | MovementLabel.center => m.center
  | MovementLabel.none => false

/-- `sum(1 for move in required_movements if movements[move])`. -/
def satisfiedCount (m : Movements) : ℕ :=
  (requiredMovements.filter (getMovement m)).length

/-- `face_detected_frames / max(total_frames, 1)` (Python true division). -/
def detectionRate (r : SessionRecord) : ℚ :=
  (r.face_detected_frames : ℚ) / ((max r.total_frames 1 : ℕ) : ℚ)

/-- `check_verification_complete(session_data)`: sets both verdict flags
when the three-part condition holds and returns the (possibly updated)
`verification_complete` flag. -/
def checkVerificationComplete (p : Policy) (r : SessionRecord) :
    Bool × SessionRecord :=
  if 3 ≤ satisfiedCount r.movements ∧ p.minFrames ≤ r.total_frames ∧
      p.minFaceDetectionRate ≤ detectionRate r then
    ((true : Bool), { r with verification_complete := true, is_verified := true })
  else
    (r.verification_complete, r)

/-- The response dict of `process_frame`. -/
structure FrameResult where
  face_detected : Bool
  movement_detected : MovementLabel
  movements_completed : Movements
  verification_complete : Bool
  is_verified : Bool
  progress : ℚ
deriving DecidableEq

/-- `process_frame` on an existing session's record.  `input = none`
models a frame in which upstream face detection found no face.
`total_frames` is incremented unconditionally; the response dict is built
(with its default `false`/`0` fields and a copy of the movements dict)
before the face branch, so on a no-face frame those defaults are returned
as-is. -/
def processFrame (p : Policy) (now : ℚ) (r : SessionRecord)
    (input : Option Pose) : FrameResult × SessionRecord :=
  let r1 := { r with total_frames := r.total_frames + 1 }
  let resp0 : FrameResult :=
    { face_detected := false
      movement_detected := MovementLabel.none
      movements_completed := r1.movements
      verification_complete := false
      is_verified := false
      progress := 0 }
  match input with
  | Option.none => (resp0, r1)
  | Option.some pose =>
    let r2 := { r1 with face_detected_frames := r1.face_detected_frames + 1 }
    let dm := detectMovement p now pose r2
    let cvc := checkVerificationComplete p dm.2
    let completed : ℕ := satisfiedCount cvc.2.movements
    ({ resp0 with
        face_detected := true
        movement_detected := dm.1
        verification_complete := cvc.1
        is_verified := cvc.2.is_verified
        progress := min 100 (((completed : ℚ) / 4) * 100) },
      cvc.2)

/-- A sequence of `process_frame` calls on one session's record, each with
its own clock reading. -/
def processFrames (p : Policy) (r : SessionRecord) :
    List (ℚ × Option Pose) → SessionRecord
  | [] => r
  | (t, i) :: rest => processFrames p (processFrame p t r i).2 rest

/-- Session ids: `str(int(time.time() * 1000))`; modelled by the numeric
millisecond value (Python's `str` is injective on these). -/
abbrev SessionId := ℕ

/-- The `self.sessions` dict, as an association list (insertion order). -/
abbrev SessionStore := List (SessionId × SessionRecord)

/-- `session_id in self.sessions` / `self.sessions[session_id]` lookup. -/
def lookupSession : SessionStore → SessionId → Option SessionRecord
  | [], _ => Option.none
  | (k, r) :: rest, id => if k = id then Option.some r else lookupSession rest id

/-- `self.sessions[session_id] = record`: Python dict assignment —
replaces the record when the key is present, appends otherwise. -/
def insertSession : SessionStore → SessionId → SessionRecord → SessionStore
  | [], id, r => [(id, r)]
  | (k, r0) :: rest, id, r =>
    if k = id then (id, r) :: rest else (k, r0) :: insertSession rest id r

/-- The freshly-zeroed record built by `create_session`. -/
def initialRecord (t : ℚ) : SessionRecord :=
  { start_time := t
    movements := { left := false, right := false, up := false, down := false, center := false }
    movement_history := []
    face_positions := []
    verification_complete := false
    is_verified := false
    total_frames := 0
    face_detected_frames := 0 }

/-- `create_session()` at clock reading `t` seconds:
`session_id = str(int(time.time() * 1000))` (truncation; the clock is
nonnegative, so truncation is `Int.floor`), then
`self.sessions[session_id] = {...zeroed...}`. -/
def createSession (t : ℚ) (s : SessionStore) : SessionId × SessionStore :=
  let id : SessionId := (⌊t * 1000⌋).toNat
  (id, insertSession s id (initialRecord t))

/-- `process_frame(session_id, ...)` on the store: `{'error': ...}`
(modelled `Option.none`) when the id is unknown, otherwise process and
write the updated record back. -/
def processFrameStore (p : Policy) (now : ℚ) (s : SessionStore)
    (id : SessionId) (input : Option Pose) : Option FrameResult × SessionStore :=
  match lookupSession s id with
  | Option.none => (Option.none, s)
  | Option.some r =>
    let pr := processFrame p now r input
    (Option.some pr.1, insertSession s id pr.2)

/-- The status dict returned by `get_session_status`. -/
structure SessionStatus where
  session_id : SessionId
  movements_completed : Movements
  verification_complete : Bool
  is_verified : Bool
  total_frames : ℕ
  face_detected_frames : ℕ
  elapsed_time : ℚ
deriving DecidableEq

/-- `get_session_status(session_id)`: a pure read of the store (`'error'`
modelled `Option.none`); it mutates nothing. -/
def getSessionStatus (s : SessionStore) (id : SessionId) (now : ℚ) :
    Option SessionStatus :=
  match lookupSession s id with
  | Option.none => Option.none
  | Option.some r =>
    Option.some
      { session_id := id
        movements_completed := r.movements
        verification_complete := r.verification_complete
        is_verified := r.is_verified
        total_frames := r.total_frames
        face_detected_frames := r.face_detected_frames
        elapsed_time := now - r.start_time }

/-- The completion condition written exactly as the spec states it
(§4.3): `satisfied ≥ minRequiredCount (3)` and
`totalFrames ≥ minTotalFrames` and
`faceDetectedFrames / max(totalFrames, 1) ≥ minFaceDetectionRate`;
stated from the spec's words, to be compared with
`checkVerificationComplete` (which is translated from the code). -/
def completionSpecB (p : Policy) (r : SessionRecord) : Bool :=
  decide (3 ≤ satisfiedCount r.movements) &&
  decide (p.minFrames ≤ r.total_frames) &&
  decide (p.minFaceDetectionRate ≤ detectionRate r)

/-- Pointwise Boolean order on completed-movement flag sets: every flag
set in `a` is set in `b`. -/
def movementsLeB (a b : Movements) : Bool :=
  (!a.left || b.left) && (!a.right || b.right) && (!a.up || b.up) &&
  (!a.down || b.down) && (!a.center || b.center)

/-- An operation of the engine's public surface. -/
inductive EngineOp
  | create (t : ℚ)
  | frame (now : ℚ) (id : SessionId) (input : Option Pose)
  | status (id : SessionId) (now : ℚ)

/-- Effect of one operation on the store (`get_session_status` only reads). -/
def applyOp (p : Policy) (s : SessionStore) : EngineOp → SessionStore
  | EngineOp.create t => (createSession t s).2
  | EngineOp.frame now id input => (processFrameStore p now s id input).2
  | EngineOp.status _ _ => s

/-- Effect of a sequence of operations, starting from store `s`. -/
def applyOps (p : Policy) (s : SessionStore) : List EngineOp → SessionStore
  | [] => s
  | op :: rest => applyOps p (applyOp p s op) rest

/-- Every record present in the store counts at most as many face-detected
frames as submitted frames. -/
def storeInv (s : SessionStore) : Prop :=
  ∀ id r, lookupSession s id = Option.some r →
    r.face_detected_frames ≤ r.total_frames

/-- The record `r` with its `down` completed-movement flag replaced by `b`
(all other state identical). -/
def withDown (r : SessionRecord) (b : Bool) : SessionRecord :=
  { r with movements := { r.movements with down := b } }

/-- A mid-session record: `left`, `right`, `up` achieved, 50 frames
submitted, 40 with a face, verdict flags still false. -/
def openRecordEx : SessionRecord :=
  { start_time := 0
    movements := { left := true, right := true, up := true, down := false, center := false }
    movement_history := []
    face_positions := []
    verification_complete := false
    is_verified := false
    total_frames := 50
    face_detected_frames := 40 }

/-- A record whose verification already completed (both flags set). -/
def completedRecordEx : SessionRecord :=
  { start_time := 0
    movements := { left := true, right := true, up := true, down := false, center := true }
    movement_history := []
    face_positions := []
    verification_complete := true
    is_verified := true
    total_frames := 50
    face_detected_frames := 50 }

/-- A record with `left` and `right` achieved and nothing else. -/
def twoMovementsRecordEx : SessionRecord :=
  { start_time := 0
    movements := { left := true, right := true, up := false, down := false, center := false }
    movement_history := []
    face_positions := []
    verification_complete := false
    is_verified := false
    total_frames := 10
    face_detected_frames := 10 }

/-- Store after one `create_session` at clock reading 5 s (id 5000). -/
def collisionStore1 : SessionStore := (createSession 5 ([] : SessionStore)).2

/-- `collisionStore1` after one `process_frame` on session 5000 (its
`total_frames` is now 1). -/
def collisionStore2 : SessionStore :=
  (processFrameStore simplePolicy 5 collisionStore1 5000 Option.none).2

/-! Helper lemmas about the embedded operations. -/

theorem detectMovement_fst (p : Policy) (now : ℚ) (pose : Pose) (r : SessionRecord) :
    (detectMovement p now pose r).1 =
      classify p.centerThreshold p.hThreshold p.vThreshold pose.horizontal pose.vertical := by
  simp only [detectMovement]

theorem detectMovement_movements (p : Policy) (now : ℚ) (pose : Pose) (r : SessionRecord) :
    (detectMovement p now pose r).2.movements =
      setMovement r.movements
        (classify p.centerThreshold p.hThreshold p.vThreshold pose.horizontal pose.vertical) := by
  simp only [detectMovement]
  split <;> rfl

theorem detectMovement_verification_complete (p : Policy) (now : ℚ) (pose : Pose)
    (r : SessionRecord) :
    (detectMovement p now pose r).2.verification_complete = r.verification_complete := by
  simp only [detectMovement]
  split <;> rfl

theorem detectMovement_is_verified (p : Policy) (now : ℚ) (pose : Pose) (r : SessionRecord) :
    (detectMovement p now pose r).2.is_verified = r.is_verified := by
  simp only [detectMovement]
  split <;> rfl

theorem detectMovement_total_frames (p : Policy) (now : ℚ) (pose : Pose) (r : SessionRecord) :
    (detectMovement p now pose r).2.total_frames = r.total_frames := by
  simp only [detectMovement]
  split <;> rfl

theorem detectMovement_face_detected_frames (p : Policy) (now : ℚ) (pose : Pose)
    (r : SessionRecord) :
    (detectMovement p now pose r).2.face_detected_frames = r.face_detected_frames := by
  simp only [detectMovement]
  split <;> rfl

theorem checkVC_movements (p : Policy) (r : SessionRecord) :
    (checkVerificationComplete p r).2.movements = r.movements := by
  unfold checkVerificationComplete
  split <;> rfl

theorem checkVC_total_frames (p : Policy) (r : SessionRecord) :
    (checkVerificationComplete p r).2.total_frames = r.total_frames := by
  unfold checkVerificationComplete
  split <;> rfl

theorem checkVC_face_detected_frames (p : Policy) (r : SessionRecord) :
    (checkVerificationComplete p r).2.face_detected_frames = r.face_detected_frames := by
  unfold checkVerificationComplete
  split <;> rfl

theorem checkVC_preserves_flags (p : Policy) (r : SessionRecord)
    (h1 : r.verification_complete = true) (h2 : r.is_verified = true) :
    (checkVerificationComplete p r).2.verification_complete = true ∧
      (checkVerificationComplete p r).2.is_verified = true := by
  unfold checkVerificationComplete
  split
  · exact ⟨rfl, rfl⟩
  · exact ⟨h1, h2⟩

theorem processFrame_none (p : Policy) (now : ℚ) (r : SessionRecord) :
    processFrame p now r Option.none =
      ({ face_detected := false
         movement_detected := MovementLabel.none
         movements_completed := r.movements
         verification_complete := false
         is_verified := false
         progress := 0 },
       { r with total_frames := r.total_frames + 1 }) := rfl

theorem processFrame_some_snd (p : Policy) (now : ℚ) (r : SessionRecord) (pose : Pose) :
    (processFrame p now r (Option.some pose)).2 =
      (checkVerificationComplete p
        (detectMovement p now pose
          { r with total_frames := r.total_frames + 1
                   face_detected_frames := r.face_detected_frames + 1 }).2).2 := rfl

theorem processFrame_some_movements (p : Policy) (now : ℚ) (r : SessionRecord) (pose : Pose) :
    (processFrame p now r (Option.some pose)).2.movements =
      setMovement r.movements
        (classify p.centerThreshold p.hThreshold p.vThreshold pose.horizontal pose.vertical) := by
  rw [processFrame_some_snd, checkVC_movements, detectMovement_movements]

theorem processFrame_some_progress (p : Policy) (now : ℚ) (r : SessionRecord) (pose : Pose) :
    (processFrame p now r (Option.some pose)).1.progress =
      min 100 (((satisfiedCount (processFrame p now r (Option.some pose)).2.movements : ℚ)) / 4 * 100) :=
  rfl

theorem processFrame_preserves_flags (p : Policy) (now : ℚ) (r : SessionRecord)
    (input : Option Pose) (h1 : r.verification_complete = true) (h2 : r.is_verified = true) :
    (processFrame p now r input).2.verification_complete = true ∧
      (processFrame p now r input).2.is_verified = true := by
  cases input with
  | none => exact ⟨h1, h2⟩
  | some pose =>
    refine checkVC_preserves_flags p _ ?_ ?_
    · rw [detectMovement_verification_complete]; exact h1
    · rw [detectMovement_is_verified]; exact h2

theorem movementsLeB_refl (a : Movements) : movementsLeB a a = true := by
  obtain ⟨a1, a2, a3, a4, a5⟩ := a
  revert a1 a2 a3 a4 a5
  decide

theorem movementsLeB_trans (a b c : Movements) (hab : movementsLeB a b = true)
    (hbc : movementsLeB b c = true) : movementsLeB a c = true := by
  obtain ⟨a1, a2, a3, a4, a5⟩ := a
  obtain ⟨b1, b2, b3, b4, b5⟩ := b
  obtain ⟨c1, c2, c3, c4, c5⟩ := c
  revert hab hbc
  revert a1 a2 a3 a4 a5 b1 b2 b3 b4 b5 c1 c2 c3 c4 c5
  decide

theorem movementsLeB_setMovement (m : Movements) (md : MovementLabel) :
    movementsLeB m (setMovement m md) = true := by
  obtain ⟨m1, m2, m3, m4, m5⟩ := m
  cases md <;> revert m1 m2 m3 m4 m5 <;> decide

theorem processFrame_movements_mono (p : Policy) (now : ℚ) (r : SessionRecord)
    (input : Option Pose) :
    movementsLeB r.movements (processFrame p now r input).2.movements = true := by
  cases input with
  | none => exact movementsLeB_refl _
  | some pose =>
    rw [processFrame_some_movements]
    exact movementsLeB_setMovement _ _

theorem satisfiedCount_down_invariant (m : Movements) (b : Bool) :
    satisfiedCount { m with down := b } = satisfiedCount m := by
  obtain ⟨m1, m2, m3, m4, m5⟩ := m
  cases m1 <;> cases m2 <;> cases m3 <;> cases m5 <;> rfl

theorem satisfiedCount_setMovement_down (m : Movements) (b : Bool) (md : MovementLabel) :
    satisfiedCount (setMovement { m with down := b } md) =
      satisfiedCount (setMovement m md) := by
  obtain ⟨m1, m2, m3, m4, m5⟩ := m
  cases md <;> cases m1 <;> cases m2 <;> cases m3 <;> cases m5 <;> rfl

theorem processFrame_total_frames (p : Policy) (now : ℚ) (r : SessionRecord)
    (input : Option Pose) :
    (processFrame p now r input).2.total_frames = r.total_frames + 1 := by
  cases input with
  | none => rfl
  | some pose =>
    rw [processFrame_some_snd, checkVC_total_frames, detectMovement_total_frames]

theorem processFrame_face_frames_le (p : Policy) (now : ℚ) (r : SessionRecord)
    (input : Option Pose) :
    (processFrame p now r input).2.face_detected_frames ≤ r.face_detected_frames + 1 := by
  cases input with
  | none => exact Nat.le_succ _
  | some pose =>
    rw [processFrame_some_snd, checkVC_face_detected_frames,
      detectMovement_face_detected_frames]

theorem processFrame_inv_step (p : Policy) (now : ℚ) (r : SessionRecord)
    (input : Option Pose) (h : r.face_detected_frames ≤ r.total_frames) :
    (processFrame p now r input).2.face_detected_frames ≤
      (processFrame p now r input).2.total_frames := by
  rw [processFrame_total_frames]
  exact le_trans (processFrame_face_frames_le p now r input) (Nat.succ_le_succ h)

theorem lookupSession_insert (s : SessionStore) (id : SessionId) (r : SessionRecord)
    (id2 : SessionId) :
    lookupSession (insertSession s id r) id2 =
      if id = id2 then Option.some r else lookupSession s id2 := by
  induction s with
  | nil => simp [insertSession, lookupSession]
  | cons kv rest ih =>
    obtain ⟨k, r0⟩ := kv
    by_cases hk : k = id
    · subst hk
      simp only [insertSession, if_pos rfl, lookupSession]
      split <;> rfl
    · simp only [insertSession, if_neg hk, lookupSession]
      by_cases hk2 : k = id2
      · subst hk2
        rw [if_pos rfl, if_neg, if_pos rfl]
        exact fun h => hk h.symm
      · rw [if_neg hk2, ih, if_neg hk2]

theorem storeInv_nil : storeInv ([] : SessionStore) := by
  intro id r hl
  exact Option.noConfusion hl

theorem storeInv_create (t : ℚ) (s : SessionStore) (h : storeInv s) :
    storeInv (createSession t s).2 := by
  intro id r hl
  unfold createSession at hl
  rw [lookupSession_insert] at hl
  split at hl
  · cases hl
    exact Nat.le_refl 0
  · exact h id r hl

theorem storeInv_frame (p : Policy) (now : ℚ) (id : SessionId) (input : Option Pose)
    (s : SessionStore) (h : storeInv s) :
    storeInv (processFrameStore p now s id input).2 := by
  unfold processFrameStore
  cases hl : lookupSession s id with
  | none => exact h
  | some r0 =>
    intro id2 r2 hl2
    rw [lookupSession_insert] at hl2
    split at hl2
    · cases hl2
      exact processFrame_inv_step p now r0 input (h id r0 hl)
    · exact h id2 r2 hl2

theorem storeInv_ops (p : Policy) (s : SessionStore) (ops : List EngineOp)
    (h : storeInv s) : storeInv (applyOps p s ops) := by
  induction ops generalizing s with
  | nil => exact h
  | cons op rest ih =>
    refine ih _ ?_
    cases op with
    | create t => exact storeInv_create t s h
    | frame now id input => exact storeInv_frame p now id input s h
    | status id now => exact h

/-! Theorems settling the claims. -/

/-- Claim C1: for every pose signal and positive thresholds, classification
returns the first matching label in the fixed order
center / right / left / up / down / none, with all comparisons strict
(a value exactly equal to a threshold does not match its branch), and a
pose exceeding both the horizontal and the vertical threshold is decided
by the horizontal branch. -/
theorem classify_first_match_strict (ct ht vt h v : ℚ)
    (hct : 0 < ct) (hht : 0 < ht) (hvt : 0 < vt) :
    (|h| < ct ∧ |v| < ct → classify ct ht vt h v = MovementLabel.center)
    ∧ (¬(|h| < ct ∧ |v| < ct) → h > ht → classify ct ht vt h v = MovementLabel.right)
    ∧ (¬(|h| < ct ∧ |v| < ct) → ¬h > ht → h < -ht →
        classify ct ht vt h v = MovementLabel.left)
    ∧ (¬(|h| < ct ∧ |v| < ct) → ¬h > ht → ¬h < -ht → v < -vt →
        classify ct ht vt h v = MovementLabel.up)
    ∧ (¬(|h| < ct ∧ |v| < ct) → ¬h > ht → ¬h < -ht → ¬v < -vt → v > vt →
        classify ct ht vt h v = MovementLabel.down)
    ∧ (¬(|h| < ct ∧ |v| < ct) → ¬h > ht → ¬h < -ht → ¬v < -vt → ¬v > vt →
        classify ct ht vt h v = MovementLabel.none)
    ∧ (h = ht → classify ct ht vt h v ≠ MovementLabel.right)
    ∧ (h = -ht → classify ct ht vt h v ≠ MovementLabel.left)
    ∧ (v = -vt → classify ct ht vt h v ≠ MovementLabel.up)
    ∧ (v = vt → classify ct ht vt h v ≠ MovementLabel.down)
    ∧ (|h| = ct ∨ |v| = ct → classify ct ht vt h v ≠ MovementLabel.center)
    ∧ (¬(|h| < ct ∧ |v| < ct) → ht < |h| → vt < |v| →
        classify ct ht vt h v = MovementLabel.right ∨
          classify ct ht vt h v = MovementLabel.left) := by
  unfold classify
  refine ⟨?_, ?_, ?_, ?_, ?_, ?_, ?_, ?_, ?_, ?_, ?_, ?_⟩
  · intro hc
    rw [if_pos hc]
  · intro hnc hr
    rw [if_neg hnc, if_pos hr]
  · intro hnc hnr hl
    rw [if_neg hnc, if_neg hnr, if_pos hl]
  · intro hnc hnr hnl hu
    rw [if_neg hnc, if_neg hnr, if_neg hnl, if_pos hu]
  · intro hnc hnr hnl hnu hd
    rw [if_neg hnc, if_neg hnr, if_neg hnl, if_neg hnu, if_pos hd]
  · intro hnc hnr hnl hnu hnd
    rw [if_neg hnc, if_neg hnr, if_neg hnl, if_neg hnu, if_neg hnd]
  · intro he
    split_ifs with h1 h2 h3 h4 h5
    · simp
    · rw [he] at h2
      exact absurd h2 (lt_irrefl ht)
    · simp
    · simp
    · simp
    · simp
  · intro he
    split_ifs with h1 h2 h3 h4 h5
    · simp
    · simp
    · rw [he] at h3
      exact absurd h3 (lt_irrefl (-ht))
    · simp
    · simp
    · simp
  · intro he
    split_ifs with h1 h2 h3 h4 h5
    · simp
    · simp
    · simp
    · rw [he] at h4
      exact absurd h4 (lt_irrefl (-vt))
    · simp
    · simp
  · intro he
    split_ifs with h1 h2 h3 h4 h5
    · simp
    · simp
    · simp
    · simp
    · rw [he] at h5
      exact absurd h5 (lt_irrefl vt)
    · simp
  · intro he
    split_ifs with h1 h2 h3 h4 h5
    · rcases he with he | he
      · exact absurd (he ▸ h1.1) (lt_irrefl ct)
      · exact absurd (he ▸ h1.2) (lt_irrefl ct)
    · simp
    · simp
    · simp
    · simp
    · simp
  · intro hnc hh hv
    rw [if_neg hnc]
    rcases lt_abs.mp hh with h1 | h1
    · rw [if_pos h1]
      exact Or.inl rfl
    · have hl : h < -ht := by linarith
      have hnr : ¬h > ht := by
        intro hcontra
        linarith
      rw [if_neg hnr, if_pos hl]
      exact Or.inr rfl

/-- Witness for C1: the pose `(0.3, 0)` under the simple-variant
thresholds is outside the center band, beyond the horizontal threshold,
and classifies as `right`. -/
theorem classify_first_match_strict_witness :
    classify (1/10) (1/5) (3/20) (3/10) 0 = MovementLabel.right :=
  (classify_first_match_strict (1/10) (1/5) (3/20) (3/10) 0
      (by norm_num) (by norm_num) (by norm_num)).2.1
    (by norm_num [abs_lt]) (by norm_num)

/-- Claim C2: on a record not yet marked complete, the completion
evaluation sets `verification_complete = true` iff at least 3 of the four
required movements (`left, right, up, center`) are done, `total_frames`
meets the minimum and the face-detection rate
`face_detected_frames / max(total_frames, 1)` meets the minimum; whenever
it sets `complete` it also sets `verified`, and when the condition fails
both flags remain false and the record is unchanged. -/
theorem completion_evaluation_policy (p : Policy) (r : SessionRecord)
    (h1 : r.verification_complete = false) (h2 : r.is_verified = false) :
    (checkVerificationComplete p r).1 = completionSpecB p r
    ∧ (checkVerificationComplete p r).2.verification_complete = completionSpecB p r
    ∧ (checkVerificationComplete p r).2.is_verified = completionSpecB p r
    ∧ (completionSpecB p r = false → (checkVerificationComplete p r).2 = r) := by
  by_cases hcond : 3 ≤ satisfiedCount r.movements ∧ p.minFrames ≤ r.total_frames ∧
      p.minFaceDetectionRate ≤ detectionRate r
  · have hb : completionSpecB p r = true := by
      simp [completionSpecB, hcond.1, hcond.2.1, hcond.2.2]
    unfold checkVerificationComplete
    rw [if_pos hcond, hb]
    refine ⟨rfl, rfl, rfl, ?_⟩
    intro hfalse
    exact absurd hfalse (by simp)
  · have hb : completionSpecB p r = false := by
      rw [Bool.eq_false_iff]
      intro hT
      apply hcond
      simpa [completionSpecB, and_assoc] using hT
    unfold checkVerificationComplete
    rw [if_neg hcond, hb]
    exact ⟨h1, h1, h2, fun _ => rfl⟩

/-- Witness for C2: the evaluation on a concrete open record with
`left, right, up` done, 50 frames and detection rate 0.8. -/
theorem completion_evaluation_policy_witness :
    (checkVerificationComplete simplePolicy openRecordEx).1 =
        completionSpecB simplePolicy openRecordEx
    ∧ (checkVerificationComplete simplePolicy openRecordEx).2.verification_complete =
        completionSpecB simplePolicy openRecordEx
    ∧ (checkVerificationComplete simplePolicy openRecordEx).2.is_verified =
        completionSpecB simplePolicy openRecordEx
    ∧ (completionSpecB simplePolicy openRecordEx = false →
        (checkVerificationComplete simplePolicy openRecordEx).2 = openRecordEx) :=
  completion_evaluation_policy simplePolicy openRecordEx rfl rfl

/-- Claim C3: once both verdict flags are true, any further sequence of
`process_frame` calls (arbitrary poses, no-face frames) leaves them true:
the completed state is terminal. -/
theorem verification_complete_terminal (p : Policy) (r : SessionRecord)
    (l : List (ℚ × Option Pose)) (h1 : r.verification_complete = true)
    (h2 : r.is_verified = true) :
    (processFrames p r l).verification_complete = true ∧
      (processFrames p r l).is_verified = true := by
  induction l generalizing r with
  | nil => exact ⟨h1, h2⟩
  | cons ti rest ih =>
    obtain ⟨t, i⟩ := ti
    have hstep := processFrame_preserves_flags p t r i h1 h2
    exact ih _ hstep.1 hstep.2

/-- Witness for C3: a completed record stays completed across a no-face
frame followed by an extreme pose. -/
theorem verification_complete_terminal_witness :
    (processFrames simplePolicy completedRecordEx
        [(6, Option.none), (7, Option.some ⟨1, 1⟩)]).verification_complete = true ∧
    (processFrames simplePolicy completedRecordEx
        [(6, Option.none), (7, Option.some ⟨1, 1⟩)]).is_verified = true :=
  verification_complete_terminal simplePolicy completedRecordEx
    [(6, Option.none), (7, Option.some ⟨1, 1⟩)] rfl rfl

/-- Claim C4: every completed-movement flag, once set, remains set across
any further sequence of frames (including `none`-classified and no-face
frames): the completed-movement set grows monotonically. -/
theorem completed_movements_monotone (p : Policy) (r : SessionRecord)
    (l : List (ℚ × Option Pose)) :
    movementsLeB r.movements (processFrames p r l).movements = true := by
  induction l generalizing r with
  | nil => exact movementsLeB_refl _
  | cons ti rest ih =>
    obtain ⟨t, i⟩ := ti
    exact movementsLeB_trans _ _ _ (processFrame_movements_mono p t r i) (ih _)

/-- Counterexample to C5: on a no-face frame, `process_frame` returns the
response dict's default fields, so an already-completed session is
reported with `verification_complete = false`, `is_verified = false` —
not the record's actual (true) flags as the claim states. -/
theorem no_face_frame_counterexample :
    completedRecordEx.verification_complete = true
    ∧ completedRecordEx.is_verified = true
    ∧ (processFrame simplePolicy 60 completedRecordEx Option.none).1.face_detected = false
    ∧ (processFrame simplePolicy 60 completedRecordEx Option.none).1.verification_complete
        = false
    ∧ (processFrame simplePolicy 60 completedRecordEx Option.none).1.is_verified = false :=
  ⟨rfl, rfl, rfl, rfl, rfl⟩

/-- Claim C5 as amended: on a no-face frame, `total_frames` is incremented
and nothing else in the record changes; the response has
`face_detected = false` and `movements_completed` mirroring the record,
but reports `verification_complete = false`, `is_verified = false` and
`progress = 0` regardless of the record's actual state. -/
theorem no_face_frame_amended (p : Policy) (now : ℚ) (r : SessionRecord) :
    processFrame p now r Option.none =
      ({ face_detected := false
         movement_detected := MovementLabel.none
         movements_completed := r.movements
         verification_complete := false
         is_verified := false
         progress := 0 },
       { r with total_frames := r.total_frames + 1 }) := rfl

/-- Claim C6 fails on the code: ids are the millisecond clock reading, so
two `create_session` calls within the same millisecond (clock reading 5 s
both times) return the same id 5000, and the second call's dict
assignment overwrites the first session's record (its `total_frames`,
advanced to 1 by a processed frame, is reset to 0). -/
theorem create_session_id_collision :
    (createSession 5 ([] : SessionStore)).1 = 5000
    ∧ (createSession 5 collisionStore2).1 = 5000
    ∧ lookupSession collisionStore2 5000 =
        Option.some { initialRecord 5 with total_frames := 1 }
    ∧ lookupSession (createSession 5 collisionStore2).2 5000 =
        Option.some (initialRecord 5) := by
  have h5 : ⌊(5 : ℚ) * 1000⌋ = 5000 := by norm_num
  have hid : (⌊(5 : ℚ) * 1000⌋).toNat = 5000 := by rw [h5]; rfl
  have hstore1 : collisionStore1 = [(5000, initialRecord 5)] := by
    simp only [collisionStore1, createSession, insertSession]
    rw [hid]
  have hstore2 : collisionStore2 =
      [(5000, { initialRecord 5 with total_frames := 1 })] := by
    rw [collisionStore2, hstore1]
    simp [processFrameStore, lookupSession, insertSession, processFrame_none,
      initialRecord]
  refine ⟨hid, hid, ?_, ?_⟩
  · rw [hstore2]
    simp [lookupSession]
  · rw [hstore2]
    simp only [createSession, hid, insertSession]
    simp [lookupSession]

/-- Claim C7: after any sequence of engine operations starting from the
empty store, every session record in the store has
`face_detected_frames ≤ total_frames`. -/
theorem face_frames_le_total_frames (p : Policy) (ops : List EngineOp)
    (id : SessionId) (r : SessionRecord)
    (h : lookupSession (applyOps p ([] : SessionStore) ops) id = Option.some r) :
    r.face_detected_frames ≤ r.total_frames :=
  storeInv_ops p ([] : SessionStore) ops storeInv_nil id r h

/-- Witness for C7: the record of a freshly created session (ops =
one `create` at 5 s) satisfies the invariant. -/
theorem face_frames_le_total_frames_witness :
    (initialRecord 5).face_detected_frames ≤ (initialRecord 5).total_frames :=
  face_frames_le_total_frames simplePolicy [EngineOp.create 5] 5000
    (initialRecord 5)
    (by
      have h5 : ⌊(5 : ℚ) * 1000⌋ = 5000 := by norm_num
      have hid : (⌊(5 : ℚ) * 1000⌋).toNat = 5000 := by rw [h5]; rfl
      simp [applyOps, applyOp, createSession, insertSession, hid, lookupSession])

/-- Claim C8: for a session id not in the store, `process_frame` and
`get_session_status` both fail (error result) and the store is returned
exactly as it was — no record is mutated. -/
theorem unknown_session_error_no_mutation (p : Policy) (now now2 : ℚ)
    (s : SessionStore) (id : SessionId) (input : Option Pose)
    (h : lookupSession s id = Option.none) :
    processFrameStore p now s id input = (Option.none, s)
    ∧ getSessionStatus s id now2 = Option.none := by
  refine ⟨?_, ?_⟩
  · unfold processFrameStore
    rw [h]
  · unfold getSessionStatus
    rw [h]

/-- Witness for C8: a one-session store queried with an unknown id. -/
theorem unknown_session_error_no_mutation_witness :
    processFrameStore simplePolicy 0 [(1, initialRecord 0)] 2 Option.none =
      (Option.none, [(1, initialRecord 0)])
    ∧ getSessionStatus [(1, initialRecord 0)] 2 0 = Option.none :=
  unknown_session_error_no_mutation simplePolicy 0 0 [(1, initialRecord 0)] 2
    Option.none rfl

/-- Claim C9: whenever a face was detected this frame, the reported
progress equals `min(100, 100 * satisfied / 4)` over the four required
movements; with exactly three satisfied it is 75. -/
theorem progress_formula (p : Policy) (now : ℚ) (r : SessionRecord) (pose : Pose) :
    (processFrame p now r (Option.some pose)).1.progress =
      min 100
        (100 * ((satisfiedCount (processFrame p now r (Option.some pose)).2.movements : ℚ)) / 4)
    ∧ (satisfiedCount (processFrame p now r (Option.some pose)).2.movements = 3 →
        (processFrame p now r (Option.some pose)).1.progress = 75) := by
  constructor
  · rw [processFrame_some_progress]
    congr 1
    ring
  · intro h3
    rw [processFrame_some_progress, h3]
    norm_num [min_def]

/-- Witness for C9: a record with `left` and `right` done receives an
`up`-classified pose; three of four movements satisfied gives 75. -/
theorem progress_formula_witness :
    (processFrame simplePolicy 0 twoMovementsRecordEx
        (Option.some ⟨0, -(1/2)⟩)).1.progress = 75 :=
  (progress_formula simplePolicy 0 twoMovementsRecordEx ⟨0, -(1/2)⟩).2
    (by
      rw [processFrame_some_movements]
      have hcl : classify simplePolicy.centerThreshold simplePolicy.hThreshold
          simplePolicy.vThreshold (Pose.mk 0 (-(1/2))).horizontal
          (Pose.mk 0 (-(1/2))).vertical = MovementLabel.up := by
        norm_num [classify, simplePolicy, abs_lt]
      rw [hcl]
      rfl)

/-- Claim C10: the `down` flag is dead state for the verdict — two records
identical except for `down` get the same completion-evaluation result,
the same verdict flags, and the same reported progress. -/
theorem down_flag_noninterference (p : Policy) (r : SessionRecord) (b : Bool)
    (now : ℚ) (input : Option Pose) :
    (checkVerificationComplete p (withDown r b)).1 = (checkVerificationComplete p r).1
    ∧ (checkVerificationComplete p (withDown r b)).2.verification_complete =
        (checkVerificationComplete p r).2.verification_complete
    ∧ (checkVerificationComplete p (withDown r b)).2.is_verified =
        (checkVerificationComplete p r).2.is_verified
    ∧ (processFrame p now (withDown r b) input).1.progress =
        (processFrame p now r input).1.progress := by
  have hcond : (3 ≤ satisfiedCount (withDown r b).movements ∧
        p.minFrames ≤ (withDown r b).total_frames ∧
        p.minFaceDetectionRate ≤ detectionRate (withDown r b))
      ↔ (3 ≤ satisfiedCount r.movements ∧ p.minFrames ≤ r.total_frames ∧
        p.minFaceDetectionRate ≤ detectionRate r) := by
    rw [show satisfiedCount (withDown r b).movements = satisfiedCount r.movements
      from satisfiedCount_down_invariant r.movements b]
    exact Iff.rfl
  refine ⟨?_, ?_, ?_, ?_⟩
  · unfold checkVerificationComplete
    by_cases hc : 3 ≤ satisfiedCount r.movements ∧ p.minFrames ≤ r.total_frames ∧
        p.minFaceDetectionRate ≤ detectionRate r
    · rw [if_pos (hcond.mpr hc), if_pos hc]
    · rw [if_neg (fun hcl => hc (hcond.mp hcl)), if_neg hc]
      rfl
  · unfold checkVerificationComplete
    by_cases hc : 3 ≤ satisfiedCount r.movements ∧ p.minFrames ≤ r.total_frames ∧
        p.minFaceDetectionRate ≤ detectionRate r
    · rw [if_pos (hcond.mpr hc), if_pos hc]
    · rw [if_neg (fun hcl => hc (hcond.mp hcl)), if_neg hc]
      rfl
  · unfold checkVerificationComplete
    by_cases hc : 3 ≤ satisfiedCount r.movements ∧ p.minFrames ≤ r.total_frames ∧
        p.minFaceDetectionRate ≤ detectionRate r
    · rw [if_pos (hcond.mpr hc), if_pos hc]
    · rw [if_neg (fun hcl => hc (hcond.mp hcl)), if_neg hc]
      rfl
  · cases input with
    | none => rfl
    | some pose =>
      rw [processFrame_some_progress, processFrame_some_progress,
        processFrame_some_movements, processFrame_some_movements]
      have heq : satisfiedCount (setMovement (withDown r b).movements
            (classify p.centerThreshold p.hThreshold p.vThreshold
              pose.horizontal pose.vertical)) =
          satisfiedCount (setMovement r.movements
            (classify p.centerThreshold p.hThreshold p.vThreshold
              pose.horizontal pose.vertical)) :=
        satisfiedCount_setMovement_down r.movements b _
      rw [heq]

end Croc
